import Mathlib

/-!
Shallow embedding of the Tracklore gateway-service (Python/FastAPI) for
specification checking.  The definitions below are translated from the
repository sources:

* `src/app/utils/circuit_breaker.py` — the `CircuitBreaker` class;
* `src/app/api/routes.py` — the proxy engine, error mapping, and health
  endpoint;
* `src/app/dependencies/auth.py` — JWT validation for protected HTTP routes;
* `src/app/dependencies/ws_auth.py` — WebSocket token extraction.

Python wall-clock times (`time.time()`) are modelled as integers passed
explicitly to every operation that reads the clock.  Python `None` becomes
`Option.none`.  Truthiness of `self.last_failure_time` (a float timestamp or
`None`) is modelled as `Option.isSome`, since real timestamps are positive.
Exceptions become explicit `Except`/sum results.
-/

deriving instance DecidableEq for Except

namespace Gateway

/-- Split a character list on a separator character; models Python
`str.split(sep)` for a one-character separator (every occurrence splits, and
empty fields are kept). -/
def splitOnChar (sep : Char) : List Char → List (List Char)
  | [] => [[]]
  | c :: cs =>
      let rest := splitOnChar sep cs
      if c = sep then [] :: rest
      else
        match rest with
        | r :: rs => (c :: r) :: rs
        | [] => [[c]]

/-- Whether the first character list starts with the second; models Python
`str.startswith`. -/
def startsWithChars : List Char → List Char → Bool
  | _, [] => true
  | [], _ :: _ => false
  | c :: cs, p :: ps => c = p && startsWithChars cs ps

/-- The three circuit-breaker states of `CircuitState` in
`src/app/utils/circuit_breaker.py` (`CLOSED`, `OPEN`, `HALF_OPEN`).
`OPEN` is rendered `opened` because `open` is a Lean keyword. -/
inductive CircuitState
  | closed
  | opened
  | halfOpen
deriving DecidableEq, Repr

/-- The mutable fields of the Python `CircuitBreaker` object together with its
construction parameters `failure_threshold` and `timeout`. -/
structure CircuitBreaker where
  failure_threshold : Nat
  timeout : Int
  failure_count : Nat
  last_failure_time : Option Int
  state : CircuitState
deriving DecidableEq, Repr

/-- `CircuitBreaker.__init__(failure_threshold, timeout)`: starts `CLOSED`
with `failure_count = 0` and `last_failure_time = None`. -/
def CircuitBreaker.init (failure_threshold : Nat) (timeout : Int) : CircuitBreaker :=
  { failure_threshold := failure_threshold
    timeout := timeout
    failure_count := 0
    last_failure_time := none
    state := CircuitState.closed }

/-- `CircuitBreaker.is_open(self)`: if the state is `OPEN` and the timeout has
elapsed since `last_failure_time`, moves to `HALF_OPEN`; returns whether the
state (after that possible transition) is still `OPEN`.  `now` stands for the
`time.time()` call.  Returns the boolean result paired with the updated
breaker. -/
def CircuitBreaker.is_open (cb : CircuitBreaker) (now : Int) : Bool × CircuitBreaker :=
  if cb.state = CircuitState.opened then
    let cb1 :=
      match cb.last_failure_time with
      | some t =>
          if now - t ≥ cb.timeout then { cb with state := CircuitState.halfOpen } else cb
      | none => cb
    (decide (cb1.state = CircuitState.opened), cb1)
  else
    (false, cb)

/-- `CircuitBreaker.call_succeeded(self)`: resets `failure_count` to 0, clears
`last_failure_time`, and (re)sets the state to `CLOSED`. -/
def CircuitBreaker.call_succeeded (cb : CircuitBreaker) : CircuitBreaker :=
  { cb with
    failure_count := 0
    last_failure_time := none
    state := CircuitState.closed }

/-- `CircuitBreaker.call_failed(self)`: increments `failure_count`, stamps
`last_failure_time := now`, and moves to `OPEN` when the incremented count
reaches `failure_threshold`.  There is no explicit `HALF_OPEN` branch in the
source. -/
def CircuitBreaker.call_failed (cb : CircuitBreaker) (now : Int) : CircuitBreaker :=
  if cb.failure_count + 1 ≥ cb.failure_threshold then
    { cb with
      failure_count := cb.failure_count + 1
      last_failure_time := some now
      state := CircuitState.opened }
  else
    { cb with
      failure_count := cb.failure_count + 1
      last_failure_time := some now }

/-- One observable operation on a breaker, with the clock value it sees. -/
inductive BreakerOp
  | admission (now : Int)
  | succeeded
  | failed (now : Int)
deriving DecidableEq, Repr

/-- Apply one operation to a breaker (the boolean result of `is_open` is
discarded; only the state evolution matters here). -/
def CircuitBreaker.step (cb : CircuitBreaker) : BreakerOp → CircuitBreaker
  | BreakerOp.admission now => (cb.is_open now).2
  | BreakerOp.succeeded => cb.call_succeeded
  | BreakerOp.failed now => cb.call_failed now

/-- Run a sequence of operations from a breaker state. -/
def CircuitBreaker.run (cb : CircuitBreaker) (ops : List BreakerOp) : CircuitBreaker :=
  ops.foldl CircuitBreaker.step cb

/-- States reachable from a freshly constructed
`CircuitBreaker(failure_threshold, timeout)` by any sequence of `is_open`,
`call_succeeded`, `call_failed` operations. -/
inductive Reachable (ft : Nat) (tmo : Int) : CircuitBreaker → Prop
  | init : Reachable ft tmo (CircuitBreaker.init ft tmo)
  | admission (now : Int) {cb : CircuitBreaker} :
      Reachable ft tmo cb → Reachable ft tmo (cb.is_open now).2
  | succeeded {cb : CircuitBreaker} :
      Reachable ft tmo cb → Reachable ft tmo cb.call_succeeded
  | failed (now : Int) {cb : CircuitBreaker} :
      Reachable ft tmo cb → Reachable ft tmo (cb.call_failed now)

/-- Exceptions that `httpx` may raise from a downstream request, as
discriminated by the `except` clauses of `_proxy_request` in
`src/app/api/routes.py`: `TimeoutException` (which includes connect and read
timeouts), `ConnectError` (non-timeout connect-phase failures), and any other
unexpected exception. -/
inductive PyExn
  | timeoutException
  | connectError
  | otherError
deriving DecidableEq, Repr

/-- Result of the wrapped operation passed to `CircuitBreaker.call`: the
Python coroutine either returns a value or raises an exception. -/
abbrev OpOutcome (α : Type) := Except PyExn α

/-- Error results of `CircuitBreaker.call`: either the
`CircuitBreakerOpenException` it raises itself before invoking the wrapped
operation, or the re-raised exception of the wrapped operation. -/
inductive CallError
  | breakerOpen
  | exn (e : PyExn)
deriving DecidableEq, Repr

/-- `CircuitBreaker.call(self, func, ...)`: raises
`CircuitBreakerOpenException` when `is_open()` holds (without touching the
counters), otherwise runs the wrapped operation; a returned value is recorded
with `call_succeeded` and an exception with `call_failed` before being
re-raised.  `outcome` stands for what `await func(...)` would do. -/
def CircuitBreaker.call (cb : CircuitBreaker) (now : Int) (outcome : OpOutcome α) :
    Except CallError α × CircuitBreaker :=
  match cb.is_open now with
  | (true, cb1) => (Except.error CallError.breakerOpen, cb1)
  | (false, cb1) =>
      match outcome with
      | Except.ok r => (Except.ok r, cb1.call_succeeded)
      | Except.error e => (Except.error (CallError.exn e), cb1.call_failed now)

/-- An HTTP response returned by the downstream backend through `httpx`.
`httpx` returns a response object for every answered request — including 4xx
and 5xx statuses — and raises only on transport problems, so the status code
here is arbitrary. -/
structure BackendResponse where
  status_code : Nat
  content : List Nat
deriving DecidableEq, Repr

/-- Content of a gateway HTTP response: either a literal text body set by the
gateway itself or raw bytes copied from the backend response. -/
inductive ResponseContent
  | text (s : String)
  | bytes (b : List Nat)
deriving DecidableEq, Repr

/-- A response written back to the client by the proxy engine. -/
structure GatewayResponse where
  status_code : Nat
  content : ResponseContent
deriving DecidableEq, Repr

/-- The parts of an incoming request consumed by `_proxy_request`'s body
policy: the numeric value of the `Content-Length` header (absent when the
header is missing) and the request body bytes. -/
structure ProxyRequest where
  content_length : Option Nat
  body : List Nat
deriving DecidableEq, Repr

/-- How the request body is forwarded downstream: streamed through
`request.stream()` without buffering, or buffered — the bytes of
`await request.body()` sent as `content`. -/
inductive BodyTransport
  | streamed
  | buffered (bytes : List Nat)
deriving DecidableEq, Repr

/-- The `Content-Length` test in `_proxy_request` (`routes.py` lines
287-288): stream when the header is present and its value exceeds
`settings.max_request_size`, otherwise buffer the whole body. -/
def chooseBodyTransport (req : ProxyRequest) (max_request_size : Nat) : BodyTransport :=
  match req.content_length with
  | some n =>
      if n > max_request_size then BodyTransport.streamed
      else BodyTransport.buffered req.body
  | none => BodyTransport.buffered req.body

/-- The trailing `except` clauses of `_proxy_request` (`routes.py` lines
321-329), mapping an exception escaping the guarded call to the gateway
response. -/
def exceptionResponse (e : PyExn) : GatewayResponse :=
  match e with
  | PyExn.timeoutException => ⟨504, ResponseContent.text "Gateway Timeout"⟩
  | PyExn.connectError => ⟨502, ResponseContent.text "Bad Gateway"⟩
  | PyExn.otherError => ⟨500, ResponseContent.text "Internal Server Error"⟩

/-- Everything observable about one `_proxy_request` invocation: the response
sent to the client, the breaker afterwards, whether the backend call was
invoked, and — when it was — the body transport handed to the pooled client. -/
structure ProxyResult where
  response : GatewayResponse
  breaker : CircuitBreaker
  contacted_backend : Bool
  outbound_body : Option BodyTransport
deriving DecidableEq, Repr

/-- `_proxy_request(request, service, path)` for a supported service.  Every
supported service gets a breaker at module load (`routes.py` lines 43-46), so
the breaker is taken as present.  `outcome` stands for the behaviour the
downstream call would have if invoked: `_make_downstream_request` and
`_make_streaming_downstream_request` return the backend response object for
any status code and raise only transport exceptions.  The pre-check `if
circuit_breaker.is_open()` answers 503 `Service Unavailable` before the URL
and body are even assembled; `CircuitBreakerOpenException` from the guarded
call is caught and mapped to the same 503. -/
def proxyRequest (cb : CircuitBreaker) (now : Int) (req : ProxyRequest)
    (max_request_size : Nat) (outcome : OpOutcome BackendResponse) : ProxyResult :=
  match cb.is_open now with
  | (true, cb1) =>
      ⟨⟨503, ResponseContent.text "Service Unavailable"⟩, cb1, false, none⟩
  | (false, cb1) =>
      let transport := chooseBodyTransport req max_request_size
      match cb1.call now outcome with
      | (Except.ok r, cb2) =>
          ⟨⟨r.status_code, ResponseContent.bytes r.content⟩, cb2, true, some transport⟩
      | (Except.error CallError.breakerOpen, cb2) =>
          ⟨⟨503, ResponseContent.text "Service Unavailable"⟩, cb2, false, none⟩
      | (Except.error (CallError.exn e), cb2) =>
          ⟨exceptionResponse e, cb2, true, some transport⟩

/-- The eight supported services of `SUPPORTED_SERVICES` in `routes.py`
(lines 32-41), paired with their base URLs from the settings defaults in
`src/shared-libs/core/settings.py`. -/
def SUPPORTED_SERVICES : List (String × String) :=
  [("user", "http://user-service:8001"),
   ("auth", "http://auth-service:8002"),
   ("badge", "http://badge-service:8003"),
   ("feed", "http://feed-service:8004"),
   ("messaging", "http://messaging-service:8005"),
   ("notification", "http://notification-service:8006"),
   ("project", "http://project-service:8007"),
   ("new", "http://new-service:8008")]

/-- One entry of the health report's `services` mapping. -/
structure ServiceStatus where
  name : String
  url : String
  status : String
deriving DecidableEq, Repr

/-- The per-service status string computed by `health_check`: starts as
`unknown`, replaced via the breaker-state mapping when the registry holds a
breaker for the name. -/
def breakerStatus (cb : Option CircuitBreaker) : String :=
  match cb with
  | none => "unknown"
  | some b =>
      match b.state with
      | CircuitState.closed => "healthy"
      | CircuitState.opened => "unavailable"
      | CircuitState.halfOpen => "recovering"

/-- The health-check response body together with the HTTP status FastAPI
gives a plain dict return (200). -/
structure HealthResponse where
  http_status : Nat
  status : String
  version : String
  services : List ServiceStatus
deriving DecidableEq, Repr

/-- `GET /health` (`health_check` in `routes.py` lines 49-76): computed
purely from the local breaker registry (`breakers` maps a service name to its
breaker, mirroring `circuit_breakers.get`); no backend is contacted. -/
def health_check (breakers : String → Option CircuitBreaker) : HealthResponse :=
  { http_status := 200
    status := "ok"
    version := "1.0.0"
    services := SUPPORTED_SERVICES.map (fun p => ⟨p.1, p.2, breakerStatus (breakers p.1)⟩) }

/-- The JWT payload field inspected by `validate_jwt`: the optional `sub`
claim.  The remaining claims play no part in the gateway's decision and are
abstracted away. -/
structure JWTPayload where
  sub : Option String
deriving DecidableEq, Repr

/-- Outcome of the auth dependency on a protected route: a validated user or
an `HTTPException` with its status, detail, and optional `WWW-Authenticate`
header. -/
inductive AuthResult
  | ok (user_id : String) (payload : JWTPayload)
  | httpError (status_code : Nat) (detail : String) (www_authenticate : Option String)
deriving DecidableEq, Repr

/-- FastAPI's rendering of an `HTTPException` detail string as the JSON
response body. -/
def detailBody (d : String) : String :=
  "\x7b\"detail\":\"" ++ d ++ "\"\x7d"

/-- `validate_jwt` in `src/app/dependencies/auth.py` (lines 21-40),
parametrised by the `jose` decoder: `decode token` returns the decoded
payload, or a `JWTError` covering signature, decoding, and expiry failures.
A decode failure or a missing `sub` claim yields HTTP 401 with detail
`Could not validate credentials` and header `WWW-Authenticate: Bearer`. -/
def validate_jwt (decode : String → Except Unit JWTPayload) (token : String) : AuthResult :=
  match decode token with
  | Except.error _ =>
      AuthResult.httpError 401 "Could not validate credentials" (some "Bearer")
  | Except.ok payload =>
      match payload.sub with
      | none => AuthResult.httpError 401 "Could not validate credentials" (some "Bearer")
      | some uid => AuthResult.ok uid payload

/-- Modelled from the spec: the FastAPI `HTTPBearer` security scheme
instantiated at `src/app/dependencies/auth.py` line 15 is framework code not
under `src/`.  Per the spec, a protected route reached with no bearer
credential is rejected with HTTP 403 before the handler runs
(`MISSING_CREDENTIAL`); otherwise the token following the `Bearer ` scheme in
the `Authorization` header is handed to the handler's dependency. -/
def httpBearer (authorization : Option String) : Except Nat String :=
  match authorization with
  | none => Except.error 403
  | some h =>
      if startsWithChars h.data "Bearer ".data then Except.ok ⟨h.data.drop 7⟩
      else Except.error 403

/-- A protected HTTP route: `HTTPBearer` extraction, then `validate_jwt`; the
downstream proxy call runs only when both succeed.  The boolean records
whether the downstream call was made. -/
def protectedRoute (decode : String → Except Unit JWTPayload)
    (authorization : Option String) : AuthResult × Bool :=
  match httpBearer authorization with
  | Except.error s => (AuthResult.httpError s "Not authenticated" none, false)
  | Except.ok token =>
      match validate_jwt decode token with
      | AuthResult.ok uid payload => (AuthResult.ok uid payload, true)
      | AuthResult.httpError s d w => (AuthResult.httpError s d w, false)

/-- The HTTP error response FastAPI sends for an `AuthResult.httpError`: its
status code, the JSON body rendering of the detail, and the optional
`WWW-Authenticate` header.  `none` for a successful auth result (no error
response is sent). -/
def authErrorResponse : AuthResult → Option (Nat × String × Option String)
  | AuthResult.ok _ _ => none
  | AuthResult.httpError s d w => some (s, detailBody d, w)

/-- Python `urllib.parse.parse_qs` restricted to what
`get_current_user_from_websocket` feeds it (no percent-escapes in the
modelled inputs): fields are split on `&`, a field without `=` or with an
empty value is dropped (`keep_blank_values` is false), and the first `=` of a
field separates key from value. -/
def parse_qs (s : String) : List (String × String) :=
  (splitOnChar '&' s.data).filterMap (fun field =>
    match splitOnChar '=' field with
    | k :: v :: rest =>
        let value := List.intercalate ['='] (v :: rest)
        if value = [] then none else some (⟨k⟩, ⟨value⟩)
    | _ => none)

/-- What the WebSocket token-extraction code does with a connection:
produces a token to validate, rejects the upgrade with close code 1008
(`WebSocketException`), or crashes with a Python `KeyError`. -/
inductive WsTokenResult
  | token (t : String)
  | rejected1008
  | keyError
deriving DecidableEq, Repr

/-- Token extraction of `get_current_user_from_websocket` in
`src/app/dependencies/ws_auth.py` (lines 16-38), translated as written:
`parse_qs` is applied to the VALUE of the `token` query parameter (default
`""`), and a non-empty parse result is indexed as `query_params[0]` — an
integer key into a string-keyed dict, which raises `KeyError`.  Only when the
parse result is empty does the code fall back to the `Authorization` header,
taking `auth_header.split(" ")[1]` when the header starts with `Bearer `.
An empty or missing token raises `WebSocketException` with code 1008. -/
def ws_extract_token (token_param : Option String) (auth_header : Option String) :
    WsTokenResult :=
  match parse_qs (token_param.getD "") with
  | _ :: _ => WsTokenResult.keyError
  | [] =>
      let token : Option String :=
        match auth_header with
        | some h =>
            if startsWithChars h.data "Bearer ".data then
              some ⟨(splitOnChar ' ' h.data).getD 1 []⟩
            else none
        | none => none
      match token with
      | some t => if t = "" then WsTokenResult.rejected1008 else WsTokenResult.token t
      | none => WsTokenResult.rejected1008

/-! Basic facts about the breaker operations. -/

theorem is_open_preserves_counters (cb : CircuitBreaker) (now : Int) :
    (cb.is_open now).2.failure_count = cb.failure_count ∧
    (cb.is_open now).2.last_failure_time = cb.last_failure_time ∧
    (cb.is_open now).2.failure_threshold = cb.failure_threshold ∧
    (cb.is_open now).2.timeout = cb.timeout := by
  unfold CircuitBreaker.is_open
  split
  · cases h : cb.last_failure_time with
    | none => simp [h]
    | some t => simp only; split <;> simp [h]
  · simp

theorem is_open_state_closed_iff (cb : CircuitBreaker) (now : Int) :
    ((cb.is_open now).2.state = CircuitState.closed ↔ cb.state = CircuitState.closed) := by
  unfold CircuitBreaker.is_open
  split
  · rename_i hop
    cases h : cb.last_failure_time with
    | none => simp [hop]
    | some t =>
        simp only
        split
        · simp [hop]
        · simp
  · simp

theorem call_failed_threshold (cb : CircuitBreaker) (now : Int) :
    (cb.call_failed now).failure_threshold = cb.failure_threshold ∧
    (cb.call_failed now).failure_count = cb.failure_count + 1 ∧
    (cb.call_failed now).last_failure_time = some now := by
  unfold CircuitBreaker.call_failed
  split <;> simp

/-- Invariant of reachable states: away from `CLOSED`, the failure counter has
reached the threshold and a failure timestamp is recorded; the construction
parameters are preserved. -/
theorem reachable_invariant {ft : Nat} {tmo : Int} {cb : CircuitBreaker}
    (h : Reachable ft tmo cb) :
    cb.failure_threshold = ft ∧ cb.timeout = tmo ∧
    (cb.state ≠ CircuitState.closed →
      ft ≤ cb.failure_count ∧ cb.last_failure_time.isSome) := by
  induction h with
  | init => simp [CircuitBreaker.init]
  | admission now h ih =>
      rename_i cb0
      obtain ⟨hft, htmo, hinv⟩ := ih
      obtain ⟨hc, hl, hth, hto⟩ := is_open_preserves_counters cb0 now
      refine ⟨hth.trans hft, hto.trans htmo, ?_⟩
      intro hne
      have : cb0.state ≠ CircuitState.closed := by
        intro hcl
        exact hne ((is_open_state_closed_iff cb0 now).mpr hcl)
      obtain ⟨h1, h2⟩ := hinv this
      exact ⟨hc ▸ h1, hl ▸ h2⟩
  | succeeded h ih =>
      obtain ⟨hft, htmo, _⟩ := ih
      exact ⟨hft, htmo, by intro hne; exact absurd rfl hne⟩
  | failed now h ih =>
      rename_i cb0
      obtain ⟨hft, htmo, hinv⟩ := ih
      unfold CircuitBreaker.call_failed
      split
      · rename_i hge
        refine ⟨hft, htmo, ?_⟩
        intro _
        exact ⟨hft ▸ hge, by simp⟩
      · rename_i hlt
        refine ⟨hft, htmo, ?_⟩
        intro hne
        obtain ⟨h1, _⟩ := hinv hne
        exact ⟨Nat.le_succ_of_le h1, by simp⟩

theorem run_nil (cb : CircuitBreaker) : cb.run [] = cb := rfl

theorem run_cons (cb : CircuitBreaker) (x : BreakerOp) (l : List BreakerOp) :
    cb.run (x :: l) = (cb.step x).run l := rfl

/-- Running only failure recordings below the threshold from a `CLOSED` state
keeps the breaker `CLOSED` and accumulates the count. -/
theorem run_failed_below_threshold (times : List Int) (cb : CircuitBreaker)
    (hcl : cb.state = CircuitState.closed)
    (hlt : cb.failure_count + times.length < cb.failure_threshold) :
    (cb.run (times.map BreakerOp.failed)).state = CircuitState.closed ∧
    (cb.run (times.map BreakerOp.failed)).failure_count = cb.failure_count + times.length ∧
    (cb.run (times.map BreakerOp.failed)).failure_threshold = cb.failure_threshold := by
  induction times generalizing cb with
  | nil => simp [run_nil, hcl]
  | cons t ts ih =>
      rw [List.map_cons, run_cons]
      have hstep : cb.step (BreakerOp.failed t) =
          { cb with failure_count := cb.failure_count + 1, last_failure_time := some t } := by
        show cb.call_failed t = _
        unfold CircuitBreaker.call_failed
        rw [if_neg]
        simp only [List.length_cons] at hlt
        omega
      rw [hstep]
      have := ih { cb with failure_count := cb.failure_count + 1, last_failure_time := some t }
        hcl (by simp only [List.length_cons] at hlt ⊢; omega)
      simp only [List.length_cons] at *
      obtain ⟨h1, h2, h3⟩ := this
      exact ⟨h1, by omega, h3⟩

/-- Running at least one failure recording whose total takes the count to the
threshold leaves the breaker `OPEN`. -/
theorem run_failed_reaches_threshold (times : List Int) (cb : CircuitBreaker)
    (hne : times ≠ [])
    (hge : cb.failure_threshold ≤ cb.failure_count + times.length) :
    (cb.run (times.map BreakerOp.failed)).state = CircuitState.opened := by
  induction times generalizing cb with
  | nil => exact absurd rfl hne
  | cons t ts ih =>
      rw [List.map_cons, run_cons]
      show ((cb.call_failed t).run (ts.map BreakerOp.failed)).state = CircuitState.opened
      cases ts with
      | nil =>
          rw [List.map_nil, run_nil]
          unfold CircuitBreaker.call_failed
          rw [if_pos (by simp only [List.length_cons, List.length_nil] at hge; omega)]
      | cons t2 ts2 =>
          refine ih _ (by simp) ?_
          obtain ⟨-, hcount, -⟩ := call_failed_threshold cb t
          have hth : (cb.call_failed t).failure_threshold = cb.failure_threshold :=
            (call_failed_threshold cb t).1
          rw [hcount, hth]
          simp only [List.length_cons] at hge ⊢
          omega

/-- C1: Circuit breaker recovery.  For every breaker reachable from
construction that has tripped — state `OPEN` with `last_failure_time` set —
once `now - last_failure_time ≥ timeout` the next admission check (`is_open`)
transitions the state to `HALF_OPEN` and admits the call (returns `false`);
a subsequent successful call yields state `CLOSED` with `failure_count = 0`
and `last_failure_time` cleared; a subsequent failed call (at any time)
transitions the state back to `OPEN`. -/
theorem C1_breaker_recovery {ft : Nat} {tmo : Int} {cb : CircuitBreaker}
    (hreach : Reachable ft tmo cb)
    (hopen : cb.state = CircuitState.opened)
    {t : Int} (hlast : cb.last_failure_time = some t)
    (now now2 : Int) (helapsed : now - t ≥ cb.timeout) :
    (cb.is_open now).1 = false ∧
    (cb.is_open now).2.state = CircuitState.halfOpen ∧
    ((cb.is_open now).2.call_succeeded.state = CircuitState.closed ∧
      (cb.is_open now).2.call_succeeded.failure_count = 0 ∧
      (cb.is_open now).2.call_succeeded.last_failure_time = none) ∧
    ((cb.is_open now).2.call_failed now2).state = CircuitState.opened := by
  have hcb1 : cb.is_open now = (false, { cb with state := CircuitState.halfOpen }) := by
    unfold CircuitBreaker.is_open
    rw [if_pos hopen, hlast]
    simp only [if_pos helapsed]
    simp
  obtain ⟨hth, -, hinv⟩ := reachable_invariant hreach
  have hcount : ft ≤ cb.failure_count := (hinv (by rw [hopen]; simp)).1
  refine ⟨by rw [hcb1], by rw [hcb1], by rw [hcb1]; simp [CircuitBreaker.call_succeeded], ?_⟩
  rw [hcb1]
  show ({ cb with state := CircuitState.halfOpen }.call_failed now2).state = CircuitState.opened
  unfold CircuitBreaker.call_failed
  rw [if_pos (by simp only; omega)]

/-- Witness for C1 at a concrete tripped breaker: threshold 1, timeout 60,
one failure recorded at time 0, admission queried at time 60, the probe
failure recorded at time 61. -/
theorem C1_breaker_recovery_witness :
    (((CircuitBreaker.init 1 60).call_failed 0).is_open 60).1 = false ∧
    (((CircuitBreaker.init 1 60).call_failed 0).is_open 60).2.state = CircuitState.halfOpen ∧
    ((((CircuitBreaker.init 1 60).call_failed 0).is_open 60).2.call_succeeded.state =
        CircuitState.closed ∧
      (((CircuitBreaker.init 1 60).call_failed 0).is_open 60).2.call_succeeded.failure_count = 0 ∧
      (((CircuitBreaker.init 1 60).call_failed 0).is_open 60).2.call_succeeded.last_failure_time =
        none) ∧
    ((((CircuitBreaker.init 1 60).call_failed 0).is_open 60).2.call_failed 61).state =
      CircuitState.opened :=
  C1_breaker_recovery (Reachable.failed 0 Reachable.init) (by decide)
    (t := 0) (by decide) 60 61 (by decide)

/-- C2 as stated is false on the code: `call_failed` has no `HALF_OPEN`
branch, so on the state (`HALF_OPEN`, `failure_count = 0`,
`failure_threshold = 5`) a failure leaves the state `HALF_OPEN`, not `OPEN`,
although the state before the call was `HALF_OPEN`. -/
theorem C2_call_failed_counterexample :
    ((⟨5, 60, 0, none, CircuitState.halfOpen⟩ : CircuitBreaker).call_failed 7).state =
      CircuitState.halfOpen ∧
    ¬ ((⟨5, 60, 0, none, CircuitState.halfOpen⟩ : CircuitBreaker).call_failed 7).state =
      CircuitState.opened ∧
    ((⟨5, 60, 0, none, CircuitState.halfOpen⟩ : CircuitBreaker).call_failed 7).failure_count = 1 ∧
    ((⟨5, 60, 0, none, CircuitState.halfOpen⟩ : CircuitBreaker).call_failed 7).last_failure_time =
      some 7 := by
  decide

/-- C2 amended: for every circuit breaker state, `call_failed` increments
`failure_count` by one, sets `last_failure_time` to the current time, and
transitions the state to `OPEN` exactly when the new count reaches
`failure_threshold`; otherwise the state is unchanged (on reachable
`HALF_OPEN` states the count already exceeds the threshold, which subsumes
the dropped `HALF_OPEN` disjunct). -/
theorem C2_call_failed_amended (cb : CircuitBreaker) (now : Int) :
    (cb.call_failed now).failure_count = cb.failure_count + 1 ∧
    (cb.call_failed now).last_failure_time = some now ∧
    (cb.failure_count + 1 ≥ cb.failure_threshold →
      (cb.call_failed now).state = CircuitState.opened) ∧
    (cb.failure_count + 1 < cb.failure_threshold →
      (cb.call_failed now).state = cb.state) := by
  unfold CircuitBreaker.call_failed
  split
  · simp_all
  · refine ⟨by simp, by simp, by omega, by simp⟩

/-- Witness for C2's amended statement on a fresh breaker with threshold 5 at
time 7: count 1, stamp 7, state still `CLOSED`. -/
theorem C2_call_failed_amended_witness :
    ((CircuitBreaker.init 5 60).call_failed 7).failure_count = 1 ∧
    ((CircuitBreaker.init 5 60).call_failed 7).last_failure_time = some 7 ∧
    ((CircuitBreaker.init 5 60).call_failed 7).state = CircuitState.closed := by
  obtain ⟨h1, h2, -, h4⟩ := C2_call_failed_amended (CircuitBreaker.init 5 60) 7
  exact ⟨h1, h2, (h4 (by decide)).trans rfl⟩

/-- C3: starting from a freshly constructed breaker (positive threshold),
`k < failure_threshold` consecutive failure recordings leave the state
`CLOSED` with `failure_count = k`; exactly `failure_threshold` consecutive
failure recordings leave the state `OPEN`. -/
theorem C3_fresh_breaker_failures (ft : Nat) (tmo : Int) (hft : 1 ≤ ft)
    (times : List Int) :
    (times.length < ft →
      ((CircuitBreaker.init ft tmo).run (times.map BreakerOp.failed)).state =
        CircuitState.closed ∧
      ((CircuitBreaker.init ft tmo).run (times.map BreakerOp.failed)).failure_count =
        times.length) ∧
    (times.length = ft →
      ((CircuitBreaker.init ft tmo).run (times.map BreakerOp.failed)).state =
        CircuitState.opened) := by
  constructor
  · intro hlt
    obtain ⟨h1, h2, -⟩ := run_failed_below_threshold times (CircuitBreaker.init ft tmo)
      rfl (by simpa [CircuitBreaker.init])
    exact ⟨h1, by simpa [CircuitBreaker.init] using h2⟩
  · intro heq
    apply run_failed_reaches_threshold
    · intro hnil
      rw [hnil] at heq
      simp at heq
      omega
    · simp [CircuitBreaker.init, heq]

/-- Witness for C3 with threshold 2: one failure leaves `CLOSED` with count
1; two failures leave `OPEN`. -/
theorem C3_fresh_breaker_failures_witness :
    (((CircuitBreaker.init 2 30).run ([(5 : Int)].map BreakerOp.failed)).state =
        CircuitState.closed ∧
      ((CircuitBreaker.init 2 30).run ([(5 : Int)].map BreakerOp.failed)).failure_count = 1) ∧
    ((CircuitBreaker.init 2 30).run ([(5 : Int), 6].map BreakerOp.failed)).state =
      CircuitState.opened := by
  refine ⟨?_, ?_⟩
  · exact (C3_fresh_breaker_failures 2 30 (by decide) [5]).1 (by decide)
  · exact (C3_fresh_breaker_failures 2 30 (by decide) [5, 6]).2 (by decide)

/-- The boolean returned by `is_open` is exactly whether the state after the
check is still `OPEN`. -/
theorem is_open_fst_eq (cb : CircuitBreaker) (now : Int) :
    (cb.is_open now).1 = decide ((cb.is_open now).2.state = CircuitState.opened) := by
  unfold CircuitBreaker.is_open
  split
  · rfl
  · rename_i h
    simp [h]

/-- A breaker that is not in the `OPEN` state passes the admission check
unchanged. -/
theorem is_open_of_not_opened (cb : CircuitBreaker) (now : Int)
    (h : cb.state ≠ CircuitState.opened) : cb.is_open now = (false, cb) := by
  unfold CircuitBreaker.is_open
  rw [if_neg h]

/-- Admission is stable: if `is_open` admits, re-checking the updated breaker
admits again without further change. -/
theorem is_open_admitted_stable (cb : CircuitBreaker) (now now2 : Int)
    (h : (cb.is_open now).1 = false) :
    (cb.is_open now).2.is_open now2 = (false, (cb.is_open now).2) := by
  apply is_open_of_not_opened
  have := is_open_fst_eq cb now
  rw [h] at this
  intro hc
  rw [hc] at this
  simp at this

/-- C4: only thrown failures of the wrapped operation count as breaker
failures.  A `BREAKER_OPEN` refusal leaves `failure_count` unchanged; a
backend HTTP response of any status (the arbitrary `r`, including 5xx) is
recorded as a success — count reset to 0, state `CLOSED`, timestamp cleared —
and returned; an exception thrown by the wrapped operation is recorded as a
failure (count incremented, timestamp stamped) and re-raised. -/
theorem C4_failure_accounting (cb : CircuitBreaker) (now : Int)
    (outcome : OpOutcome BackendResponse) (r : BackendResponse) (e : PyExn) :
    ((cb.is_open now).1 = true →
      (cb.call now outcome).1 = Except.error CallError.breakerOpen ∧
      (cb.call now outcome).2.failure_count = cb.failure_count) ∧
    ((cb.is_open now).1 = false →
      (cb.call now (Except.ok r)).1 = Except.ok r ∧
      (cb.call now (Except.ok r)).2.failure_count = 0 ∧
      (cb.call now (Except.ok r)).2.state = CircuitState.closed ∧
      (cb.call now (Except.ok r)).2.last_failure_time = none) ∧
    ((cb.is_open now).1 = false →
      (cb.call now (Except.error e : OpOutcome BackendResponse)).1 =
        Except.error (CallError.exn e) ∧
      (cb.call now (Except.error e : OpOutcome BackendResponse)).2.failure_count =
        cb.failure_count + 1 ∧
      (cb.call now (Except.error e : OpOutcome BackendResponse)).2.last_failure_time =
        some now) := by
  obtain ⟨hcount, hlast, hth, -⟩ := is_open_preserves_counters cb now
  unfold CircuitBreaker.call
  cases hio : cb.is_open now with
  | mk b cb1 =>
      cases b with
      | true =>
          refine ⟨fun _ => ⟨rfl, ?_⟩, fun h => by simp at h, fun h => by simp at h⟩
          rw [hio] at hcount
          exact hcount
      | false =>
          rw [hio] at hcount hth
          refine ⟨fun h => by simp at h, fun _ => ?_, fun _ => ?_⟩
          · exact ⟨rfl, rfl, rfl, rfl⟩
          · refine ⟨rfl, ?_, ?_⟩
            · obtain ⟨-, hc, -⟩ := call_failed_threshold cb1 now
              simp only at hcount
              simp only [hc, hcount]
            · exact (call_failed_threshold cb1 now).2.2

/-- Witness for C4: a breaker freshly open at time 0 refuses at time 10
without counting; a fresh closed breaker records a 502 backend response as a
success and a thrown timeout as a failure. -/
theorem C4_failure_accounting_witness :
    ((((CircuitBreaker.init 1 60).call_failed 0).call 10
        (Except.ok (⟨502, [9]⟩ : BackendResponse))).1 =
      Except.error CallError.breakerOpen ∧
     (((CircuitBreaker.init 1 60).call_failed 0).call 10
        (Except.ok (⟨502, [9]⟩ : BackendResponse))).2.failure_count = 1) ∧
    (((CircuitBreaker.init 3 30).call 10 (Except.ok (⟨502, [9]⟩ : BackendResponse))).1 =
        Except.ok (⟨502, [9]⟩ : BackendResponse) ∧
      ((CircuitBreaker.init 3 30).call 10
        (Except.ok (⟨502, [9]⟩ : BackendResponse))).2.failure_count = 0 ∧
      ((CircuitBreaker.init 3 30).call 10
        (Except.ok (⟨502, [9]⟩ : BackendResponse))).2.state = CircuitState.closed ∧
      ((CircuitBreaker.init 3 30).call 10
        (Except.ok (⟨502, [9]⟩ : BackendResponse))).2.last_failure_time = none) ∧
    (((CircuitBreaker.init 3 30).call 10
        (Except.error PyExn.timeoutException : OpOutcome BackendResponse)).1 =
        Except.error (CallError.exn PyExn.timeoutException) ∧
      ((CircuitBreaker.init 3 30).call 10
        (Except.error PyExn.timeoutException : OpOutcome BackendResponse)).2.failure_count = 1 ∧
      ((CircuitBreaker.init 3 30).call 10
        (Except.error PyExn.timeoutException : OpOutcome BackendResponse)).2.last_failure_time =
        some 10) := by
  refine ⟨?_, ?_, ?_⟩
  · exact (C4_failure_accounting ((CircuitBreaker.init 1 60).call_failed 0) 10
      (Except.ok ⟨502, [9]⟩) ⟨502, [9]⟩ PyExn.timeoutException).1 (by decide)
  · exact (C4_failure_accounting (CircuitBreaker.init 3 30) 10
      (Except.ok ⟨502, [9]⟩) ⟨502, [9]⟩ PyExn.timeoutException).2.1 (by decide)
  · exact (C4_failure_accounting (CircuitBreaker.init 3 30) 10
      (Except.error PyExn.timeoutException) ⟨502, [9]⟩ PyExn.timeoutException).2.2 (by decide)

/-- Unfolding of `CircuitBreaker.call` once admission is knowable: a breaker
not in the `OPEN` state runs the wrapped operation and records its outcome. -/
theorem call_of_admitted (cb : CircuitBreaker) (now : Int) (outcome : OpOutcome α)
    (h : cb.state ≠ CircuitState.opened) :
    cb.call now outcome =
      match outcome with
      | Except.ok r => (Except.ok r, cb.call_succeeded)
      | Except.error e => (Except.error (CallError.exn e), cb.call_failed now) := by
  unfold CircuitBreaker.call
  rw [is_open_of_not_opened cb now h]

/-- If admission says refused, the second component's state is `OPEN`-free…
more precisely, an admitted check leaves a non-`OPEN` state. -/
theorem state_of_admitted (cb : CircuitBreaker) (now : Int)
    (h : (cb.is_open now).1 = false) :
    (cb.is_open now).2.state ≠ CircuitState.opened := by
  have hfe := is_open_fst_eq cb now
  rw [h] at hfe
  intro hc
  rw [hc] at hfe
  simp at hfe

theorem proxyRequest_refused (cb : CircuitBreaker) (now : Int) (req : ProxyRequest)
    (msz : Nat) (outcome : OpOutcome BackendResponse)
    (h : (cb.is_open now).1 = true) :
    proxyRequest cb now req msz outcome =
      ⟨⟨503, ResponseContent.text "Service Unavailable"⟩, (cb.is_open now).2, false, none⟩ := by
  have hp : cb.is_open now = (true, (cb.is_open now).2) := by
    rw [← h]
  unfold proxyRequest
  rw [hp]

theorem proxyRequest_admitted_ok (cb : CircuitBreaker) (now : Int) (req : ProxyRequest)
    (msz : Nat) (r : BackendResponse) (h : (cb.is_open now).1 = false) :
    proxyRequest cb now req msz (Except.ok r) =
      ⟨⟨r.status_code, ResponseContent.bytes r.content⟩, (cb.is_open now).2.call_succeeded,
        true, some (chooseBodyTransport req msz)⟩ := by
  have hp : cb.is_open now = (false, (cb.is_open now).2) := by
    rw [← h]
  unfold proxyRequest
  rw [hp]
  simp only
  rw [call_of_admitted _ _ _ (state_of_admitted cb now h)]

theorem proxyRequest_admitted_exn (cb : CircuitBreaker) (now : Int) (req : ProxyRequest)
    (msz : Nat) (e : PyExn) (h : (cb.is_open now).1 = false) :
    proxyRequest cb now req msz (Except.error e) =
      ⟨exceptionResponse e, (cb.is_open now).2.call_failed now, true,
        some (chooseBodyTransport req msz)⟩ := by
  have hp : cb.is_open now = (false, (cb.is_open now).2) := by
    rw [← h]
  unfold proxyRequest
  rw [hp]
  simp only
  rw [call_of_admitted _ _ _ (state_of_admitted cb now h)]

/-- C5: proxy error mapping.  When breaker admission is refused the gateway
answers 503 `Service Unavailable` without contacting the backend; when the
forwarded call raises a timeout the gateway answers 504 `Gateway Timeout`;
a connect-phase transport error answers 502 `Bad Gateway`; any other
unexpected failure answers 500 `Internal Server Error`. -/
theorem C5_error_mapping (cb : CircuitBreaker) (now : Int) (req : ProxyRequest)
    (msz : Nat) (outcome : OpOutcome BackendResponse) :
    ((cb.is_open now).1 = true →
      (proxyRequest cb now req msz outcome).response =
        ⟨503, ResponseContent.text "Service Unavailable"⟩ ∧
      (proxyRequest cb now req msz outcome).contacted_backend = false) ∧
    ((cb.is_open now).1 = false →
      (proxyRequest cb now req msz (Except.error PyExn.timeoutException)).response =
        ⟨504, ResponseContent.text "Gateway Timeout"⟩ ∧
      (proxyRequest cb now req msz (Except.error PyExn.connectError)).response =
        ⟨502, ResponseContent.text "Bad Gateway"⟩ ∧
      (proxyRequest cb now req msz (Except.error PyExn.otherError)).response =
        ⟨500, ResponseContent.text "Internal Server Error"⟩) := by
  constructor
  · intro h
    rw [proxyRequest_refused cb now req msz outcome h]
    exact ⟨rfl, rfl⟩
  · intro h
    rw [proxyRequest_admitted_exn cb now req msz PyExn.timeoutException h,
      proxyRequest_admitted_exn cb now req msz PyExn.connectError h,
      proxyRequest_admitted_exn cb now req msz PyExn.otherError h]
    exact ⟨rfl, rfl, rfl⟩

/-- Witness for C5: a breaker open since time 0 queried at time 10 (timeout
30) refuses; a fresh breaker admits and the three exception kinds map to
504, 502, and 500. -/
theorem C5_error_mapping_witness :
    ((proxyRequest ((CircuitBreaker.init 1 30).call_failed 0) 10 ⟨some 3, [1]⟩ 10
        (Except.ok ⟨200, [2]⟩)).response =
      ⟨503, ResponseContent.text "Service Unavailable"⟩ ∧
     (proxyRequest ((CircuitBreaker.init 1 30).call_failed 0) 10 ⟨some 3, [1]⟩ 10
        (Except.ok ⟨200, [2]⟩)).contacted_backend = false) ∧
    ((proxyRequest (CircuitBreaker.init 3 30) 10 ⟨some 3, [1]⟩ 10
        (Except.error PyExn.timeoutException)).response =
      ⟨504, ResponseContent.text "Gateway Timeout"⟩ ∧
     (proxyRequest (CircuitBreaker.init 3 30) 10 ⟨some 3, [1]⟩ 10
        (Except.error PyExn.connectError)).response =
      ⟨502, ResponseContent.text "Bad Gateway"⟩ ∧
     (proxyRequest (CircuitBreaker.init 3 30) 10 ⟨some 3, [1]⟩ 10
        (Except.error PyExn.otherError)).response =
      ⟨500, ResponseContent.text "Internal Server Error"⟩) := by
  constructor
  · exact (C5_error_mapping ((CircuitBreaker.init 1 30).call_failed 0) 10 ⟨some 3, [1]⟩ 10
      (Except.ok ⟨200, [2]⟩)).1 (by decide)
  · exact (C5_error_mapping (CircuitBreaker.init 3 30) 10 ⟨some 3, [1]⟩ 10
      (Except.ok ⟨200, [2]⟩)).2 (by decide)

/-- C8: body transport policy on an admitted proxied request.  When
`Content-Length` is present and exceeds `max_request_size` the body is
forwarded as a stream; when the header is absent or its value is within the
limit, the whole body is buffered and the bytes handed to the downstream call
equal the inbound body byte-for-byte. -/
theorem C8_body_transport (cb : CircuitBreaker) (now : Int) (req : ProxyRequest)
    (msz : Nat) (r : BackendResponse) (n : Nat)
    (hadm : (cb.is_open now).1 = false) :
    (req.content_length = some n → n > msz →
      (proxyRequest cb now req msz (Except.ok r)).outbound_body =
        some BodyTransport.streamed) ∧
    ((req.content_length = none ∨ (req.content_length = some n ∧ n ≤ msz)) →
      (proxyRequest cb now req msz (Except.ok r)).outbound_body =
        some (BodyTransport.buffered req.body)) := by
  rw [proxyRequest_admitted_ok cb now req msz r hadm]
  constructor
  · intro hcl hgt
    simp only [chooseBodyTransport, hcl]
    rw [if_pos hgt]
  · intro hc
    cases hc with
    | inl hnone => simp only [chooseBodyTransport, hnone]
    | inr hle =>
        simp only [chooseBodyTransport, hle.1]
        rw [if_neg (by omega)]

/-- Witness for C8 on a fresh breaker with `max_request_size = 10`: a
declared length of 11 streams; a declared length of 3 buffers the exact
body bytes. -/
theorem C8_body_transport_witness :
    (proxyRequest (CircuitBreaker.init 3 30) 10 ⟨some 11, [1, 2]⟩ 10
        (Except.ok ⟨200, [5]⟩)).outbound_body = some BodyTransport.streamed ∧
    (proxyRequest (CircuitBreaker.init 3 30) 10 ⟨some 3, [1, 2]⟩ 10
        (Except.ok ⟨200, [5]⟩)).outbound_body =
      some (BodyTransport.buffered [1, 2]) := by
  constructor
  · exact (C8_body_transport (CircuitBreaker.init 3 30) 10 ⟨some 11, [1, 2]⟩ 10
      ⟨200, [5]⟩ 11 (by decide)).1 rfl (by decide)
  · exact (C8_body_transport (CircuitBreaker.init 3 30) 10 ⟨some 3, [1, 2]⟩ 10
      ⟨200, [5]⟩ 3 (by decide)).2 (Or.inr ⟨rfl, by decide⟩)

/-- Unfolding of `protectedRoute` once bearer extraction succeeds. -/
theorem protectedRoute_of_bearer (decode : String → Except Unit JWTPayload)
    (authorization : Option String) (token : String)
    (hok : httpBearer authorization = Except.ok token) :
    protectedRoute decode authorization =
      match validate_jwt decode token with
      | AuthResult.ok uid payload => (AuthResult.ok uid payload, true)
      | AuthResult.httpError s d w => (AuthResult.httpError s d w, false) := by
  unfold protectedRoute
  rw [hok]

/-- C6: auth gate on protected HTTP routes.  A request with no bearer
credential is rejected with HTTP 403 and no downstream call is made (the
`HTTPBearer` dependency, modelled from the spec, only ever refuses with 403);
a request whose credential fails decoding — signature, malformed token, or
expiry — or whose payload lacks a `sub` claim is rejected with HTTP 401,
body `\x7b"detail":"Could not validate credentials"\x7d`, and header
`WWW-Authenticate: Bearer`, again without a downstream call. -/
theorem C6_auth_gate (decode : String → Except Unit JWTPayload)
    (authorization : Option String) (token : String) (payload : JWTPayload) (s : Nat) :
    (protectedRoute decode none =
      (AuthResult.httpError 403 "Not authenticated" none, false)) ∧
    (httpBearer authorization = Except.error s →
      s = 403 ∧
      protectedRoute decode authorization =
        (AuthResult.httpError s "Not authenticated" none, false)) ∧
    (httpBearer authorization = Except.ok token →
      ((decode token = Except.error () →
          protectedRoute decode authorization =
            (AuthResult.httpError 401 "Could not validate credentials" (some "Bearer"),
              false)) ∧
        (decode token = Except.ok payload → payload.sub = none →
          protectedRoute decode authorization =
            (AuthResult.httpError 401 "Could not validate credentials" (some "Bearer"),
              false)))) ∧
    authErrorResponse
        (AuthResult.httpError 401 "Could not validate credentials" (some "Bearer")) =
      some (401, "\x7b\"detail\":\"Could not validate credentials\"\x7d", some "Bearer") := by
  refine ⟨rfl, ?_, ?_, rfl⟩
  · intro herr
    constructor
    · unfold httpBearer at herr
      cases authorization with
      | none => cases herr; rfl
      | some h =>
          simp only at herr
          split at herr
          · cases herr
          · cases herr; rfl
    · unfold protectedRoute
      rw [herr]
  · intro hok
    rw [protectedRoute_of_bearer decode authorization token hok]
    constructor
    · intro hdec
      simp [validate_jwt, hdec]
    · intro hdec hsub
      simp [validate_jwt, hdec, hsub]

/-- Witness for C6 with the decoder that accepts only the token `tok` (with
a payload lacking `sub`): a missing header gives 403 with no downstream
call; an undecodable token `bad` and the `sub`-less token `tok` both give
the 401 error without a downstream call. -/
theorem C6_auth_gate_witness :
    (protectedRoute (fun t => if t = "tok" then Except.ok ⟨none⟩ else Except.error ()) none =
      (AuthResult.httpError 403 "Not authenticated" none, false)) ∧
    (protectedRoute (fun t => if t = "tok" then Except.ok ⟨none⟩ else Except.error ())
        (some "Bearer bad") =
      (AuthResult.httpError 401 "Could not validate credentials" (some "Bearer"), false)) ∧
    (protectedRoute (fun t => if t = "tok" then Except.ok ⟨none⟩ else Except.error ())
        (some "Bearer tok") =
      (AuthResult.httpError 401 "Could not validate credentials" (some "Bearer"), false)) := by
  refine ⟨?_, ?_, ?_⟩
  · exact (C6_auth_gate (fun t => if t = "tok" then Except.ok ⟨none⟩ else Except.error ())
      none "x" ⟨none⟩ 403).1
  · exact ((C6_auth_gate (fun t => if t = "tok" then Except.ok ⟨none⟩ else Except.error ())
      (some "Bearer bad") "bad" ⟨none⟩ 403).2.2.1 (by decide)).1 (by decide)
  · exact ((C6_auth_gate (fun t => if t = "tok" then Except.ok ⟨none⟩ else Except.error ())
      (some "Bearer tok") "tok" ⟨none⟩ 403).2.2.1 (by decide)).2 (by decide) rfl

/-- C9: `GET /health` answers 200 with body status `ok` and a `services`
mapping whose keys are exactly the eight registered services in order; each
entry's status is derived purely from the local breaker registry by
`breakerStatus`, whose mapping is `CLOSED` to `healthy`, `OPEN` to
`unavailable`, `HALF_OPEN` to `recovering`, and missing breaker to
`unknown`.  `health_check` consumes only the breaker registry — no backend
call occurs in the model. -/
theorem C9_health (breakers : String → Option CircuitBreaker) (e : ServiceStatus)
    (he : e ∈ (health_check breakers).services) (b : CircuitBreaker) :
    (health_check breakers).http_status = 200 ∧
    (health_check breakers).status = "ok" ∧
    (health_check breakers).services.map ServiceStatus.name =
      ["user", "auth", "badge", "feed", "messaging", "notification", "project", "new"] ∧
    e.status = breakerStatus (breakers e.name) ∧
    breakerStatus none = "unknown" ∧
    (b.state = CircuitState.closed → breakerStatus (some b) = "healthy") ∧
    (b.state = CircuitState.opened → breakerStatus (some b) = "unavailable") ∧
    (b.state = CircuitState.halfOpen → breakerStatus (some b) = "recovering") := by
  refine ⟨rfl, rfl, rfl, ?_, rfl, ?_, ?_, ?_⟩
  · have hm : (health_check breakers).services =
        SUPPORTED_SERVICES.map (fun p => ⟨p.1, p.2, breakerStatus (breakers p.1)⟩) := rfl
    rw [hm] at he
    obtain ⟨p, hp, hpe⟩ := List.mem_map.mp he
    rw [← hpe]
  · intro h
    simp [breakerStatus, h]
  · intro h
    simp [breakerStatus, h]
  · intro h
    simp [breakerStatus, h]

/-- Witness for C9 with an empty breaker registry and the entry for the
`user` service, plus a fresh breaker for the state mapping. -/
theorem C9_health_witness :
    (health_check (fun _ => (none : Option CircuitBreaker))).http_status = 200 ∧
    (health_check (fun _ => (none : Option CircuitBreaker))).status = "ok" ∧
    (health_check (fun _ => (none : Option CircuitBreaker))).services.map ServiceStatus.name =
      ["user", "auth", "badge", "feed", "messaging", "notification", "project", "new"] ∧
    (⟨"user", "http://user-service:8001", "unknown"⟩ : ServiceStatus).status =
      breakerStatus ((fun _ => (none : Option CircuitBreaker))
        (⟨"user", "http://user-service:8001", "unknown"⟩ : ServiceStatus).name) ∧
    breakerStatus none = "unknown" ∧
    ((CircuitBreaker.init 3 30).state = CircuitState.closed →
      breakerStatus (some (CircuitBreaker.init 3 30)) = "healthy") ∧
    ((CircuitBreaker.init 3 30).state = CircuitState.opened →
      breakerStatus (some (CircuitBreaker.init 3 30)) = "unavailable") ∧
    ((CircuitBreaker.init 3 30).state = CircuitState.halfOpen →
      breakerStatus (some (CircuitBreaker.init 3 30)) = "recovering") :=
  C9_health (fun _ => none) ⟨"user", "http://user-service:8001", "unknown"⟩ (by decide)
    (CircuitBreaker.init 3 30)

/-- C10: in every state reachable from a freshly constructed breaker with
positive threshold, a state other than `CLOSED` implies the failure count has
reached the breaker's own threshold and a failure timestamp is recorded;
consequently a failure recorded while `HALF_OPEN` re-trips the breaker to
`OPEN` even though `call_failed` has no explicit `HALF_OPEN` case. -/
theorem C10_breaker_invariant {ft : Nat} {tmo : Int} {cb : CircuitBreaker}
    (hft : 1 ≤ ft) (hreach : Reachable ft tmo cb) (now : Int) :
    (cb.state ≠ CircuitState.closed →
      cb.failure_threshold ≤ cb.failure_count ∧ cb.last_failure_time.isSome = true) ∧
    (cb.state = CircuitState.halfOpen →
      (cb.call_failed now).state = CircuitState.opened) := by
  obtain ⟨hth, -, hinv⟩ := reachable_invariant hreach
  constructor
  · intro hne
    obtain ⟨h1, h2⟩ := hinv hne
    exact ⟨by omega, h2⟩
  · intro hho
    have hne : cb.state ≠ CircuitState.closed := by
      rw [hho]
      decide
    obtain ⟨h1, -⟩ := hinv hne
    unfold CircuitBreaker.call_failed
    rw [if_pos (by omega)]

/-- Witness for C10 at the reachable `HALF_OPEN` state obtained with
threshold 1: one failure at time 0, admission at time 60, probe failure at
time 99. -/
theorem C10_breaker_invariant_witness :
    ((((CircuitBreaker.init 1 60).call_failed 0).is_open 60).2.state ≠
        CircuitState.closed →
      (((CircuitBreaker.init 1 60).call_failed 0).is_open 60).2.failure_threshold ≤
        (((CircuitBreaker.init 1 60).call_failed 0).is_open 60).2.failure_count ∧
      (((CircuitBreaker.init 1 60).call_failed 0).is_open 60).2.last_failure_time.isSome =
        true) ∧
    ((((CircuitBreaker.init 1 60).call_failed 0).is_open 60).2.state =
        CircuitState.halfOpen →
      ((((CircuitBreaker.init 1 60).call_failed 0).is_open 60).2.call_failed 99).state =
        CircuitState.opened) :=
  C10_breaker_invariant (by decide)
    (Reachable.admission 60 (Reachable.failed 0 Reachable.init)) 99

/-- C7: the WebSocket credential extraction does NOT use the `token` query
parameter as the claim (and the spec's intent) requires.  At the failing
input — an upgrade with query parameter `token=sometoken` and no
`Authorization` header — the code rejects the upgrade with close code 1008
instead of validating `sometoken`: `parse_qs` is applied to the parameter's
VALUE, which yields no pairs for a plain token, so the parameter is ignored.
With an `Authorization` header present the header token wins over the
present `token` parameter; a token value containing `=` makes the dict
lookup `query_params[0]` raise `KeyError`.  Only the final conjunct of the
claim holds: with neither source the upgrade is rejected with 1008. -/
theorem C7_ws_token_param_ignored :
    ws_extract_token (some "sometoken") none = WsTokenResult.rejected1008 ∧
    ws_extract_token (some "sometoken") (some "Bearer headertok") =
      WsTokenResult.token "headertok" ∧
    ws_extract_token (some "a=b") (some "Bearer headertok") = WsTokenResult.keyError ∧
    ws_extract_token none none = WsTokenResult.rejected1008 := by
  decide

end Gateway
